import Mathlib

/-!
Verification of the TCP session decoder of the `swarm` packet-inspection
framework (`src/proto/tcp_ssn.cc`).  The state machine (`Node`, `TcpSession`)
and the decoder glue (`timeout_session`, `fetch_session`, `decode`) are
embedded as executable Lean functions; machine integers (`uint8_t`,
`uint32_t`) are modelled as `Nat` with explicit reduction modulo `2^32`
wherever the C++ arithmetic wraps.
-/

set_option maxRecDepth 8192

namespace Swarm

/-- TCP endpoint state (`enum TcpStat`, tcp_ssn.cc lines 33-41). -/
inductive TcpStat where
  | CLOSED
  | LISTEN
  | SYN_SENT
  | SYN_RCVD
  | ESTABLISHED
  | CLOSING
  | TIME_WAIT
deriving DecidableEq

/-- Flow direction (`FlowDir` of the framework: NIL / left-to-right /
right-to-left). -/
inductive FlowDir where
  | DIR_NIL
  | DIR_L2R
  | DIR_R2L
deriving DecidableEq

/-- TCP flag bits (tcp_ssn.cc lines 44-51). -/
def FIN : Nat := 0x01

def SYN : Nat := 0x02

def RST : Nat := 0x04

def PUSH : Nat := 0x08

def ACK : Nat := 0x10

/-- The mask applied by `TcpSession::update` (line 294): `FIN|SYN|RST|ACK`. -/
def FLAG_MASK : Nat := FIN ||| SYN ||| RST ||| ACK

/-- Modulus of 32-bit unsigned arithmetic. -/
def U32 : Nat := 4294967296

/-- Endpoint state (`TcpSession::Node`, tcp_ssn.cc lines 59-240).
`base_seq`, `sent_len`, `next_ack` are `uint32_t` in the source, so every
store into them is reduced modulo `U32`. -/
structure Node where
  base_seq : Nat
  sent_len : Nat
  next_ack : Nat
  avail_seq : Bool
  avail_ack : Bool
  stat : TcpStat
  recv_fin : Bool
  recv_finack : Bool
  sent_finack : Bool
  updated : Bool
deriving DecidableEq

/-- The `Node()` constructor (lines 74-85): everything zero / false / CLOSED. -/
def Node.init : Node :=
  { base_seq := 0, sent_len := 0, next_ack := 0,
    avail_seq := false, avail_ack := false, stat := .CLOSED,
    recv_fin := false, recv_finack := false, sent_finack := false,
    updated := false }

/-- Source function `Node::recv` (lines 94-150).  The `ack` argument is accepted but unused,
exactly as in the source. -/
def Node.recv (n : Node) (flags seq ack data_len : Nat) : Node × Bool :=
  let n := { n with updated := false }
  let n :=
    match n.stat with
    | .CLOSED =>
        if flags == SYN then
          { n with stat := .LISTEN, updated := true,
                   next_ack := (seq + 1) % U32, avail_ack := true }
        else n
    | .LISTEN => n
    | .SYN_SENT =>
        if flags == (SYN ||| ACK) then
          { n with next_ack := (seq + 1) % U32, avail_ack := true }
        else n
    | .SYN_RCVD => n
    | .ESTABLISHED =>
        if (flags &&& FIN) != 0 then { n with recv_fin := true } else n
    | .CLOSING =>
        let n := if (flags &&& FIN) != 0 then { n with recv_fin := true } else n
        let n := if (flags &&& ACK) != 0 then { n with recv_finack := true } else n
        if n.recv_fin && n.recv_finack && n.sent_finack then
          { n with stat := .TIME_WAIT, updated := true }
        else n
    | .TIME_WAIT => n
  let n :=
    if n.stat == .ESTABLISHED || n.stat == .SYN_RCVD then
      { n with next_ack := (n.next_ack + data_len) % U32 }
    else n
  (n, true)

/-- Source function `Node::send` (lines 168-229).  The `ack` argument is accepted but unused,
exactly as in the source. -/
def Node.send (n : Node) (flags seq ack data_len : Nat) : Node × Bool :=
  let n := { n with updated := false }
  let n :=
    match n.stat with
    | .CLOSED =>
        if flags == SYN then
          { n with stat := .SYN_SENT, updated := true,
                   base_seq := seq % U32, avail_seq := true }
        else n
    | .LISTEN =>
        if flags == (SYN ||| ACK) then
          { n with stat := .SYN_RCVD, updated := true,
                   base_seq := seq % U32, avail_seq := true }
        else n
    | .SYN_SENT =>
        if flags == ACK then
          { n with stat := .ESTABLISHED, updated := true }
        else n
    | .SYN_RCVD =>
        if flags == FIN then
          { n with stat := .CLOSING, updated := true }
        else
          { n with stat := .ESTABLISHED, updated := true }
    | .ESTABLISHED =>
        let n :=
          if (flags &&& FIN) != 0 then
            { n with stat := .CLOSING, updated := true }
          else n
        if n.recv_fin && (flags &&& ACK) != 0 then
          { n with sent_finack := true }
        else n
    | .CLOSING =>
        if n.recv_fin && (flags &&& ACK) != 0 then
          { n with sent_finack := true }
        else n
    | .TIME_WAIT => n
  let n :=
    if n.stat == .ESTABLISHED then
      { n with sent_len := (n.sent_len + data_len) % U32 }
    else n
  (n, true)

/-- Source function `Node::check_seq` (lines 231-238).  `base_seq_ + sent_len_ + 1` is
computed in `uint32_t`, hence the `% U32`; the second conjunct tests
`next_ack_` as a boolean, i.e. nonzero. -/
def Node.check_seq (n : Node) (seq ack : Nat) : Bool :=
  (!n.avail_seq || decide ((n.base_seq + n.sent_len + 1) % U32 ≤ seq)) &&
  (!n.avail_ack || n.next_ack != 0)

/-- The state-machine portion of `TcpSession` (lines 43-354): the two
endpoints, the client-to-server direction, and — because session entries
live inside the LRU table — the opaque flow key and the last-seen
timestamp (`key_`/`hash_` collapsed to one abstract `Nat`, `ts_`). -/
structure TcpSession where
  key : Nat
  ts : Nat
  client : Node
  server : Node
  dir : FlowDir
deriving DecidableEq

/-- The `TcpSession` constructor (lines 244-253): both endpoints zeroed,
`dir_ = DIR_NIL`.  In the source `ts_` starts uninitialized and is set by
`fetch_session` immediately after construction; the model takes it as an
argument. -/
def TcpSession.init (key ts : Nat) : TcpSession :=
  { key := key, ts := ts, client := Node.init, server := Node.init,
    dir := .DIR_NIL }

/-- Source function `TcpSession::to_server` (lines 271-273). -/
def TcpSession.to_server (s : TcpSession) (d : FlowDir) : Bool :=
  s.dir == d && s.dir != .DIR_NIL

/-- Source function `TcpSession::to_client` (lines 274-276). -/
def TcpSession.to_client (s : TcpSession) (d : FlowDir) : Bool :=
  s.dir != d && s.dir != .DIR_NIL

/-- Source function `TcpSession::is_data_available` (lines 283-290). -/
def TcpSession.is_data_available (s : TcpSession) (d : FlowDir) : Bool :=
  let sender := if s.dir == d then s.client else s.server
  !sender.updated && sender.stat == .ESTABLISHED

/-- Source function `TcpSession::update` (lines 292-353).  Returns the new session state and
the boolean `rc`.  In the source the endpoints are mutated in place; here
the updated session is returned. -/
def TcpSession.update (s : TcpSession) (flags seq ack data_len : Nat)
    (dir : FlowDir) : TcpSession × Bool :=
  let f := flags &&& FLAG_MASK
  if s.dir == .DIR_NIL then
    if f == SYN then
      let c := (s.client.send f seq ack data_len).1
      let v := (s.server.recv f seq ack data_len).1
      ({ s with dir := dir, client := c, server := v }, true)
    else
      (s, false)
  else
    if s.to_server dir then
      if s.client.check_seq seq ack then
        let c := (s.client.send f seq ack data_len).1
        let v := (s.server.recv f seq ack data_len).1
        ({ s with client := c, server := v }, true)
      else (s, false)
    else
      if s.server.check_seq seq ack then
        let v := (s.server.send f seq ack data_len).1
        let c := (s.client.recv f seq ack data_len).1
        ({ s with client := c, server := v }, true)
      else (s, false)

/-! ## The LRU session table and the decoder -/

/-- Modelled from the spec: the LRU session table of §4.1 (`lru_hash.hpp` is
not among the provided sources; only its caller `tcp_ssn.cc` is).  Each live
entry carries a deadline on the table's logical clock.  `prog delta` advances
the clock and moves every entry whose deadline has been reached into the
expired FIFO queue; `pop` drains that queue; `put ttl e` inserts `e` with
deadline `clock + ttl`; `get` looks an entry up by key without touching its
deadline.  The capacity cap (65535 entries, forced eviction on overflow) is
not modelled; no claim verified here depends on it. -/
structure LRUTable where
  clock : Nat
  live : List (Nat × TcpSession)
  expired : List TcpSession
deriving DecidableEq

/-- A freshly constructed, empty table (`new LRUHash(3600, 0xffff)`). -/
def LRUTable.empty : LRUTable := { clock := 0, live := [], expired := [] }

/-- Modelled from the spec: `LRUHash::prog` — advance the logical clock,
moving entries whose deadline has passed into the expired queue. -/
def LRUTable.prog (t : LRUTable) (delta : Nat) : LRUTable :=
  let c := t.clock + delta
  { clock := c,
    live := t.live.filter (fun e => decide (c < e.1)),
    expired := t.expired ++ (t.live.filter (fun e => decide (e.1 ≤ c))).map (·.2) }

/-- Modelled from the spec: `LRUHash::put` — insert with deadline
`clock + ttl`. -/
def LRUTable.put (t : LRUTable) (ttl : Nat) (ssn : TcpSession) : LRUTable :=
  { t with live := (t.clock + ttl, ssn) :: t.live }

/-- Modelled from the spec: `LRUHash::get` — lookup by flow key, no effect on
expiration. -/
def LRUTable.get (t : LRUTable) (key : Nat) : Option TcpSession :=
  ((t.live.filter (fun e => e.2.key == key)).map (·.2)).head?

/-- In-place mutation of the stored session (the C++ decoder holds a pointer
into the table): the entry with the given key is replaced, keeping its
deadline. -/
def LRUTable.replace (t : LRUTable) (key : Nat) (ssn : TcpSession) : LRUTable :=
  { t with live := t.live.map (fun e => if e.2.key == key then (e.1, ssn) else e) }

/-- Source constant `TcpSsnDecoder::TIMEOUT` (line 365). -/
def TIMEOUT : Nat := 300

/-- The decoder's mutable state: the session table and the remembered
`last_ts_` (line 364, initialized to 0 in the constructor). -/
structure DecoderState where
  ssn_table : LRUTable
  last_ts : Nat
deriving DecidableEq

/-- Decoder state at construction: empty table, `last_ts_ = 0`. -/
def DecoderState.init : DecoderState :=
  { ssn_table := LRUTable.empty, last_ts := 0 }

/-- The events the constructor registers with the NetDec registry
(lines 371-375): `tcp_ssn.established` and `tcp_ssn.data`. -/
inductive Event where
  | established
  | data
deriving DecidableEq

/-- The `nd->assign_event` calls in the `TcpSsnDecoder` constructor
(lines 371-375). -/
def registeredEvents : List Event := [Event.established, Event.data]

/-- One attribute write performed on the `Property` (`p->copy` / `p->set`). -/
inductive AttrWrite where
  | to_server (b : Bool)
  | segment (len : Nat)
  | server_stat (s : TcpStat)
  | client_stat (s : TcpStat)
deriving DecidableEq

/-- The per-packet inputs `decode` reads from the `Property`:
timestamp, flow direction, flow identity (label + hash collapsed to one
abstract `Nat`), the TCP header fields, and `remain()`. -/
structure PacketIn where
  tv_sec : Nat
  dir : FlowDir
  flowKey : Nat
  flags : Nat
  seq : Nat
  ack : Nat
  data_len : Nat
deriving DecidableEq

/-- Everything `decode` writes back onto the `Property`, in program order,
plus its boolean return value. -/
structure DecodeOut where
  writes : List AttrWrite
  events : List Event
  ret : Bool
deriving DecidableEq

/-- The drain loop of `timeout_session` (lines 414-422): pop each expired
entry; destroy it when `ts + TIMEOUT < now`, otherwise reinsert it with
TTL = `TIMEOUT`.  Returns the final live list and the destroyed entries.
Reinserted entries get deadline `clock + TIMEOUT` and are never re-popped
(the clock does not advance inside the loop). -/
def drainExpired (now clock : Nat) (q : List TcpSession)
    (live : List (Nat × TcpSession)) :
    List (Nat × TcpSession) × List TcpSession :=
  match q with
  | [] => (live, [])
  | e :: rest =>
      if e.ts + TIMEOUT < now then
        let r := drainExpired now clock rest live
        (r.1, e :: r.2)
      else
        drainExpired now clock rest ((clock + TIMEOUT, e) :: live)

/-- Source function `TcpSsnDecoder::timeout_session` (lines 408-424): call `prog` only when
`last_ts_ > 0 && last_ts_ < tv_sec`, remember `last_ts_ = tv_sec`, then drain
the expired queue.  Returns the new decoder state and the destroyed
sessions. -/
def TcpSsnDecoder.timeout_session (st : DecoderState) (now : Nat) :
    DecoderState × List TcpSession :=
  let t :=
    if 0 < st.last_ts ∧ st.last_ts < now then
      st.ssn_table.prog (now - st.last_ts)
    else st.ssn_table
  let r := drainExpired now t.clock t.expired t.live
  ({ ssn_table := { clock := t.clock, live := r.1, expired := [] },
     last_ts := now }, r.2)

/-- Source function `TcpSsnDecoder::fetch_session` (lines 426-442): look the session up by
flow identity; create and `put` it with TTL = `TIMEOUT` when absent; always
set its `ts` to the packet time. -/
def TcpSsnDecoder.fetch_session (t : LRUTable) (key now : Nat) :
    LRUTable × TcpSession :=
  match t.get key with
  | some ssn =>
      let ssn := { ssn with ts := now }
      (t.replace key ssn, ssn)
  | none =>
      let ssn := TcpSession.init key now
      (t.put TIMEOUT ssn, ssn)

/-- The session state as it stands right after the `ssn->update` call inside
`decode` for a given packet (the decoder then reads `to_server`,
`is_data_available`, `server_stat`, `client_stat` from this state). -/
def TcpSsnDecoder.decodedSsn (st : DecoderState) (p : PacketIn) : TcpSession :=
  let st1 := (TcpSsnDecoder.timeout_session st p.tv_sec).1
  let r1 := TcpSsnDecoder.fetch_session st1.ssn_table p.flowKey p.tv_sec
  (r1.2.update p.flags p.seq p.ack p.data_len p.dir).1

/-- Source function `TcpSsnDecoder::decode` (lines 444-493).  Returns the new decoder state,
the observable output on the `Property` (attribute writes in program order,
pushed events, boolean result) and the sessions destroyed by
`timeout_session`. -/
def TcpSsnDecoder.decode (st : DecoderState) (p : PacketIn) :
    DecoderState × DecodeOut × List TcpSession :=
  let r0 := TcpSsnDecoder.timeout_session st p.tv_sec
  let r1 := TcpSsnDecoder.fetch_session r0.1.ssn_table p.flowKey p.tv_sec
  let data_len := p.data_len
  let u := r1.2.update p.flags p.seq p.ack data_len p.dir
  let ssn := u.1
  let emit : List AttrWrite × List Event :=
    if u.2 then
      let ts := ssn.to_server p.dir
      if ssn.is_data_available p.dir then
        if 0 < data_len then
          ([AttrWrite.to_server ts, AttrWrite.segment data_len], [Event.data])
        else ([AttrWrite.to_server ts], [])
      else ([AttrWrite.to_server ts], [])
    else ([], [])
  let writes := emit.1 ++
    [AttrWrite.server_stat ssn.server.stat, AttrWrite.client_stat ssn.client.stat]
  let table := r1.1.replace p.flowKey ssn
  ({ ssn_table := table, last_ts := r0.1.last_ts },
   { writes := writes, events := emit.2, ret := true }, r0.2)

/-! ## Concrete scenario states (spec §8, scenarios 1-2 and 6) -/

/-- Handshake packet 1: (L2R, SYN, 1000, 0, 0) at t=1000 on flow 7. -/
def hsPkt1 : PacketIn := ⟨1000, .DIR_L2R, 7, 2, 1000, 0, 0⟩

/-- Handshake packet 2: (R2L, SYN|ACK, 5000, 1001, 0). -/
def hsPkt2 : PacketIn := ⟨1001, .DIR_R2L, 7, 18, 5000, 1001, 0⟩

/-- Handshake packet 3: (L2R, ACK, 1001, 5001, 0). -/
def hsPkt3 : PacketIn := ⟨1002, .DIR_L2R, 7, 16, 1001, 5001, 0⟩

/-- Data packet 4: (L2R, ACK, 1001, 5001, 100 bytes). -/
def hsPkt4 : PacketIn := ⟨1003, .DIR_L2R, 7, 16, 1001, 5001, 100⟩

/-- Decoder state after processing the three handshake packets. -/
def hsState3 : DecoderState :=
  (TcpSsnDecoder.decode
    (TcpSsnDecoder.decode
      (TcpSsnDecoder.decode DecoderState.init hsPkt1).1 hsPkt2).1 hsPkt3).1

/-- The session after the full handshake plus the 100-byte data packet,
driven directly through `TcpSession.update`: client is ESTABLISHED with
`base_seq = 1000`, `sent_len = 100`. -/
def hsSession : TcpSession :=
  let s0 := TcpSession.init 7 1000
  let s1 := (s0.update 2 1000 0 0 .DIR_L2R).1
  let s2 := (s1.update 18 5000 1001 0 .DIR_R2L).1
  let s3 := (s2.update 16 1001 5001 0 .DIR_L2R).1
  (s3.update 16 1001 5001 100 .DIR_L2R).1

/-- The sequence-plausibility acceptance predicate exactly as the
specification words it (§4.2): `(!avail_seq) || (base_seq + sent_len + 1 ≥
seq)`.  To be compared against the source's `Node.check_seq`. -/
def check_seq_spec (n : Node) (seq : Nat) : Bool :=
  !n.avail_seq || decide (seq ≤ n.base_seq + n.sent_len + 1)

/-! ## Theorems -/

/-- Claim C9: the `ack` argument does not influence the state machine — for
any session state, `update` with two different ack values returns the same
boolean and the same resulting session state. -/
theorem c9_ack_unused (s : TcpSession) (flags seq ack1 ack2 data_len : Nat)
    (d : FlowDir) :
    s.update flags seq ack1 data_len d = s.update flags seq ack2 data_len d := rfl

/-- Claim C7: `decode` returns true for every Property input, regardless of
session lookup outcome, update result, or flag/sequence anomalies. -/
theorem c7_decode_always_true (st : DecoderState) (p : PacketIn) :
    (TcpSsnDecoder.decode st p).2.1.ret = true := rfl

/-- Claim C1, counterexample: after the three-way handshake and a 100-byte
data segment, the client endpoint is ESTABLISHED with `base_seq = 1000` and
`sent_len = 100`; the claim says the input (L2R, ACK, seq=99999, len=10) then
fails `check_seq`, but the source's `check_seq` ACCEPTS it (the code tests
`base_seq + sent_len + 1 <= seq`, the opposite inequality to the spec's
`≥`), and `update` consequently returns true. -/
theorem c1_counterexample :
    hsSession.client.stat = TcpStat.ESTABLISHED ∧
    hsSession.client.base_seq = 1000 ∧
    hsSession.client.sent_len = 100 ∧
    check_seq_spec hsSession.client 99999 = false ∧
    hsSession.client.check_seq 99999 5001 = true ∧
    (hsSession.update 16 99999 5001 10 FlowDir.DIR_L2R).2 = true := by
  decide

/-- Claim C6, counterexample: `sent_len` is a `uint32_t` and wraps.  From an
ESTABLISHED endpoint with `sent_len = 100`, a single further `send` with
`data_len = 2^32 - 50` drops `sent_len` to 50, so the counter is not
monotonically non-decreasing. -/
theorem c6_counterexample :
    (((((Node.init.send 2 1000 0 0).1.send 16 1001 0 0).1.send
        16 1001 0 100).1.send 16 1101 0 4294967246).1).sent_len <
      ((((Node.init.send 2 1000 0 0).1.send 16 1001 0 0).1.send
        16 1001 0 100).1).sent_len := by
  decide

/-- Claim C3, counterexample: for the single pre-SYN packet (L2R, ACK, 1001,
5001, 50) on a fresh session the claim says the decoder writes no attributes,
but the source writes the `tcp_ssn.server_stat` and `tcp_ssn.client_stat`
attributes unconditionally (lines 480-483), so the write list is not
empty. -/
theorem c3_counterexample :
    (TcpSsnDecoder.decode DecoderState.init
        ⟨1000, .DIR_L2R, 7, 16, 1001, 5001, 50⟩).2.1.writes ≠ [] := by
  decide

/-- Claim C2, counterexample: on the fourth packet (L2R, ACK, 1001, 5001,
100) of the handshake scenario a `tcp_ssn.data` event IS pushed while the
server endpoint is still SYN_RCVD (it moves to ESTABLISHED only on its own
later send, per the source's transition diagram), so "both endpoints are in
ESTABLISHED at the moment of emission" is false, as is the claimed
SYN_RCVD→ESTABLISHED transition on the server's recv. -/
theorem c2_counterexample :
    Event.data ∈ (TcpSsnDecoder.decode hsState3 hsPkt4).2.1.events ∧
    ((TcpSsnDecoder.decode hsState3 hsPkt4).1.ssn_table.get 7).map
        (fun s => s.server.stat) = some TcpStat.SYN_RCVD ∧
    TcpStat.SYN_RCVD ≠ TcpStat.ESTABLISHED := by
  decide

/-- In the normal phase (`dir_ != DIR_NIL`), a failing `check_seq` on the
sender makes `update` return false with the session left untouched. -/
lemma update_check_seq_fail (s : TcpSession) (flags seq ack data_len : Nat)
    (d : FlowDir) (hdir : s.dir ≠ FlowDir.DIR_NIL)
    (hseq : (if s.to_server d then s.client else s.server).check_seq seq ack
              = false) :
    s.update flags seq ack data_len d = (s, false) := by
  unfold TcpSession.update
  by_cases hts : s.to_server d = true
  · rw [if_pos hts] at hseq
    simp [hdir, hts, hseq]
  · rw [if_neg hts] at hseq
    simp [hdir, hts, hseq]

/-- While `dir_ == DIR_NIL`, a packet whose masked flags are not exactly SYN
is ignored: `update` returns false and changes nothing. -/
lemma update_nil_not_syn (s : TcpSession) (flags seq ack data_len : Nat)
    (d : FlowDir) (hdir : s.dir = FlowDir.DIR_NIL)
    (hf : flags &&& FLAG_MASK ≠ SYN) :
    s.update flags seq ack data_len d = (s, false) := by
  unfold TcpSession.update
  simp [hdir, hf]

/-- Claim C1 (amended): the source's `check_seq` accepts iff
`(!avail_seq || (base_seq + sent_len + 1) mod 2^32 ≤ seq)` and
`(!avail_ack || next_ack ≠ 0)` — the inequality is the OPPOSITE direction of
the claim's, and the ack-availability conjunct is part of the test; whenever
`check_seq` fails, `update` returns false with neither endpoint mutated; and
from ESTABLISHED with client base_seq=1000, sent_len=100, the input
(L2R, ACK, seq=99999, len=10) PASSES `check_seq` rather than failing it. -/
theorem c1_amended :
    (∀ (n : Node) (seq ack : Nat),
      n.check_seq seq ack = true ↔
        ((n.avail_seq = true → (n.base_seq + n.sent_len + 1) % U32 ≤ seq) ∧
         (n.avail_ack = true → n.next_ack ≠ 0))) ∧
    (∀ (s : TcpSession) (flags seq ack data_len : Nat) (d : FlowDir),
      s.dir ≠ FlowDir.DIR_NIL →
      (if s.to_server d then s.client else s.server).check_seq seq ack = false →
      s.update flags seq ack data_len d = (s, false)) ∧
    hsSession.client.check_seq 99999 5001 = true := by
  refine ⟨?_, update_check_seq_fail, by decide⟩
  intro n seq ack
  cases hs : n.avail_seq <;> cases ha : n.avail_ack <;>
    simp [Node.check_seq, hs, ha]

/-- Witness for `c1_amended`: the failure branch at a concrete input — in
`hsSession` the server endpoint (sender of an R2L packet) has
`base_seq = 5000`, `sent_len = 0`, so seq 4000 fails `check_seq` and `update`
rejects the packet without changing the session. -/
theorem c1_witness :
    hsSession.update 16 4000 0 10 FlowDir.DIR_R2L = (hsSession, false) :=
  c1_amended.2.1 hsSession 16 4000 0 10 FlowDir.DIR_R2L (by decide) (by decide)

/-- Claim C3 (amended): a single non-SYN packet on a fresh session leaves
`dir` at NIL, `update` returns false, no event is pushed and neither the
`to_server` nor the `segment` attribute is written — but the decoder DOES
unconditionally write the `server_stat` and `client_stat` attributes (both
CLOSED). -/
theorem c3_amended (tv key flags seq ack data_len : Nat) (d : FlowDir)
    (hf : flags &&& FLAG_MASK ≠ SYN) :
    ((TcpSsnDecoder.decode DecoderState.init
        ⟨tv, d, key, flags, seq, ack, data_len⟩).1.ssn_table.get key).map
          TcpSession.dir = some FlowDir.DIR_NIL ∧
    ((TcpSession.init key tv).update flags seq ack data_len d).2 = false ∧
    (TcpSsnDecoder.decode DecoderState.init
        ⟨tv, d, key, flags, seq, ack, data_len⟩).2.1.events = [] ∧
    (TcpSsnDecoder.decode DecoderState.init
        ⟨tv, d, key, flags, seq, ack, data_len⟩).2.1.writes =
      [AttrWrite.server_stat TcpStat.CLOSED,
       AttrWrite.client_stat TcpStat.CLOSED] := by
  have hu := update_nil_not_syn (TcpSession.init key tv) flags seq ack data_len
    d rfl hf
  have hu' := hu
  simp only [TcpSession.init, Node.init] at hu'
  refine ⟨?_, by rw [hu], ?_, ?_⟩ <;>
    simp [TcpSsnDecoder.decode, TcpSsnDecoder.timeout_session,
      TcpSsnDecoder.fetch_session, DecoderState.init, LRUTable.empty,
      drainExpired, LRUTable.get, LRUTable.put, LRUTable.replace, hu', hu,
      TcpSession.init, Node.init]

/-- Witness for `c3_amended` at the claim's literal input
(L2R, ACK, 1001, 5001, 50). -/
theorem c3_witness :
    ((TcpSsnDecoder.decode DecoderState.init
        ⟨1000, FlowDir.DIR_L2R, 7, 16, 1001, 5001, 50⟩).1.ssn_table.get 7).map
          TcpSession.dir = some FlowDir.DIR_NIL ∧
    ((TcpSession.init 7 1000).update 16 1001 5001 50 FlowDir.DIR_L2R).2 = false ∧
    (TcpSsnDecoder.decode DecoderState.init
        ⟨1000, FlowDir.DIR_L2R, 7, 16, 1001, 5001, 50⟩).2.1.events = [] ∧
    (TcpSsnDecoder.decode DecoderState.init
        ⟨1000, FlowDir.DIR_L2R, 7, 16, 1001, 5001, 50⟩).2.1.writes =
      [AttrWrite.server_stat TcpStat.CLOSED,
       AttrWrite.client_stat TcpStat.CLOSED] :=
  c3_amended 1000 7 16 1001 5001 50 FlowDir.DIR_L2R (by decide)

/-- Lemma: `update` changes `dir` only in the initialization branch: from NIL on an
exact-SYN (masked) packet it becomes the packet's direction; in every other
case it is preserved. -/
lemma update_dir_eq (s : TcpSession) (flags seq ack data_len : Nat)
    (d : FlowDir) :
    ((s.update flags seq ack data_len d).1).dir =
      if s.dir = FlowDir.DIR_NIL ∧ flags &&& FLAG_MASK = SYN then d
      else s.dir := by
  unfold TcpSession.update
  by_cases h1 : s.dir = FlowDir.DIR_NIL
  · by_cases h2 : flags &&& FLAG_MASK = SYN
    · simp [h1, h2]
    · simp [h1, h2]
  · simp only [h1, false_and, if_false]
    rw [if_neg (by simp [h1])]
    split <;> split <;> rfl

/-- One packet tuple as fed to `TcpSession::update`. -/
structure Pkt where
  flags : Nat
  seq : Nat
  ack : Nat
  data_len : Nat
  pdir : FlowDir
deriving DecidableEq

/-- Folding a packet list through `TcpSession::update` (a session's whole
lifetime of update calls). -/
def runUpdates (s : TcpSession) (ps : List Pkt) : TcpSession :=
  ps.foldl (fun s p => (s.update p.flags p.seq p.ack p.data_len p.pdir).1) s

/-- Across any update sequence whose packets carry a real direction,
`dir = NIL` holds at the end iff it held at the start and no packet's masked
flags were exactly SYN. -/
lemma runUpdates_dir_nil (ps : List Pkt) :
    ∀ s : TcpSession, (∀ p ∈ ps, p.pdir ≠ FlowDir.DIR_NIL) →
      ((runUpdates s ps).dir = FlowDir.DIR_NIL ↔
        (s.dir = FlowDir.DIR_NIL ∧ ∀ p ∈ ps, p.flags &&& FLAG_MASK ≠ SYN)) := by
  induction ps with
  | nil => intro s _; simp [runUpdates]
  | cons p ps ih =>
    intro s h
    have hd : p.pdir ≠ FlowDir.DIR_NIL := h p (List.mem_cons_self p ps)
    have hrest : ∀ q ∈ ps, q.pdir ≠ FlowDir.DIR_NIL :=
      fun q hq => h q (List.mem_cons_of_mem p hq)
    have hstep : runUpdates s (p :: ps) =
        runUpdates ((s.update p.flags p.seq p.ack p.data_len p.pdir).1) ps := rfl
    rw [hstep, ih _ hrest, update_dir_eq]
    by_cases h1 : s.dir = FlowDir.DIR_NIL
    · by_cases h2 : p.flags &&& FLAG_MASK = SYN
      · simp [h1, h2, hd, List.forall_mem_cons]
      · simp [h1, h2, List.forall_mem_cons]
    · simp [h1, List.forall_mem_cons]

/-- Claim C4: starting from a fresh session and feeding any sequence of
update calls (each packet carrying a real direction, L2R or R2L), `dir`
equals NIL iff no packet whose masked flags are exactly SYN was ever passed;
and while `dir = NIL`, every non-SYN packet is rejected by `update`. -/
theorem c4_dir_nil_iff (key ts : Nat) (ps : List Pkt)
    (h : ∀ p ∈ ps, p.pdir ≠ FlowDir.DIR_NIL) :
    ((runUpdates (TcpSession.init key ts) ps).dir = FlowDir.DIR_NIL ↔
      ∀ p ∈ ps, p.flags &&& FLAG_MASK ≠ SYN) ∧
    (∀ (s : TcpSession) (flags seq ack data_len : Nat) (d : FlowDir),
      s.dir = FlowDir.DIR_NIL → flags &&& FLAG_MASK ≠ SYN →
      (s.update flags seq ack data_len d).2 = false) := by
  constructor
  · rw [runUpdates_dir_nil ps (TcpSession.init key ts) h]
    simp [TcpSession.init]
  · intro s flags seq ack data_len d h1 h2
    rw [update_nil_not_syn s flags seq ack data_len d h1 h2]

/-- Witness for `c4_dir_nil_iff`: one SYN packet flips `dir` away from
NIL. -/
theorem c4_witness :
    (runUpdates (TcpSession.init 0 0)
        [⟨2, 1000, 0, 0, FlowDir.DIR_L2R⟩]).dir ≠ FlowDir.DIR_NIL := by
  intro hnil
  have h := (c4_dir_nil_iff 0 0 [⟨2, 1000, 0, 0, FlowDir.DIR_L2R⟩]
      (by decide)).1.mp hnil ⟨2, 1000, 0, 0, FlowDir.DIR_L2R⟩ (by decide)
  exact h (by decide)

/-- Claim C8: the decoder registers `tcp_ssn.established` at construction,
but the only event `decode` can ever push is `tcp_ssn.data`. -/
theorem c8_only_data_event :
    Event.established ∈ registeredEvents ∧
    ∀ (st : DecoderState) (p : PacketIn),
      ((TcpSsnDecoder.decode st p).2.1.events).all
        (fun e => e == Event.data) = true := by
  refine ⟨by simp [registeredEvents], ?_⟩
  intro st p
  unfold TcpSsnDecoder.decode
  simp only []
  split <;> first
    | rfl
    | (split <;> first | rfl | (split <;> rfl))

/-- Claim C10: `Node::send` and `Node::recv` never report failure for inputs
satisfying the masked-flags precondition, so the boolean result of `update`
is determined solely by the dir-NIL guard and the `check_seq` guard. -/
theorem c10_send_recv_always_true (n : Node) (flags seq ack data_len : Nat)
    (h1 : flags < 256) (h2 : flags &&& 232 = 0) :
    (n.send flags seq ack data_len).2 = true ∧
    (n.recv flags seq ack data_len).2 = true ∧
    ∀ (s : TcpSession) (d : FlowDir),
      ((s.update flags seq ack data_len d).2 = false ↔
        ((s.dir = FlowDir.DIR_NIL ∧ flags &&& FLAG_MASK ≠ SYN) ∨
         (s.dir ≠ FlowDir.DIR_NIL ∧
          (if s.to_server d then s.client else s.server).check_seq seq ack
            = false))) := by
  refine ⟨rfl, rfl, ?_⟩
  intro s d
  by_cases hdir : s.dir = FlowDir.DIR_NIL
  · by_cases hf : flags &&& FLAG_MASK = SYN
    · unfold TcpSession.update
      simp [hdir, hf]
    · rw [update_nil_not_syn s flags seq ack data_len d hdir hf]
      simp [hdir, hf]
  · by_cases hc : (if s.to_server d then s.client else s.server).check_seq
        seq ack = true
    · unfold TcpSession.update
      by_cases hts : s.to_server d = true
      · rw [if_pos hts] at hc
        simp [hdir, hts, hc]
      · rw [if_neg hts] at hc
        simp [hdir, hts, hc]
    · have hc' : (if s.to_server d then s.client else s.server).check_seq
          seq ack = false := by
        cases hx : (if s.to_server d then s.client else s.server).check_seq
            seq ack
        · rfl
        · exact absurd hx hc
      rw [update_check_seq_fail s flags seq ack data_len d hdir hc']
      simp [hdir, hc']

/-- Witness for `c10_send_recv_always_true` at a concrete endpoint, flags
ACK, and session. -/
theorem c10_witness :
    ((TcpSession.init 0 0).update 16 1 2 3 FlowDir.DIR_L2R).2 = false ↔
      (((TcpSession.init 0 0).dir = FlowDir.DIR_NIL ∧
        (16 : Nat) &&& FLAG_MASK ≠ SYN) ∨
       ((TcpSession.init 0 0).dir ≠ FlowDir.DIR_NIL ∧
        (if (TcpSession.init 0 0).to_server FlowDir.DIR_L2R
         then (TcpSession.init 0 0).client
         else (TcpSession.init 0 0).server).check_seq 1 2 = false)) :=
  (c10_send_recv_always_true Node.init 16 1 2 3 (by decide) (by decide)).2.2
    (TcpSession.init 0 0) FlowDir.DIR_L2R

/-- Claim C2 (amended): every packet that pushes a `tcp_ssn.data` event has
`data_len > 0` and `is_data_available` holding, i.e. the SENDER endpoint of
the packet's direction is ESTABLISHED (and was not just transitioned); the
receiving endpoint may still lag behind.  On the fourth handshake packet the
server endpoint remains SYN_RCVD (it reaches ESTABLISHED only on its own
next send, per the source's transition diagram), while a DATA event with a
100-byte segment and `to_server = true` is emitted. -/
theorem c2_amended :
    (∀ (st : DecoderState) (p : PacketIn),
      Event.data ∈ (TcpSsnDecoder.decode st p).2.1.events →
        0 < p.data_len ∧
        (TcpSsnDecoder.decodedSsn st p).is_data_available p.dir = true ∧
        (if (TcpSsnDecoder.decodedSsn st p).dir == p.dir
         then (TcpSsnDecoder.decodedSsn st p).client
         else (TcpSsnDecoder.decodedSsn st p).server).stat
           = TcpStat.ESTABLISHED) ∧
    (TcpSsnDecoder.decode hsState3 hsPkt4).2.1.events = [Event.data] ∧
    (TcpSsnDecoder.decode hsState3 hsPkt4).2.1.writes =
      [AttrWrite.to_server true, AttrWrite.segment 100,
       AttrWrite.server_stat TcpStat.SYN_RCVD,
       AttrWrite.client_stat TcpStat.ESTABLISHED] := by
  refine ⟨?_, by decide, by decide⟩
  intro st p h
  unfold TcpSsnDecoder.decode at h
  unfold TcpSsnDecoder.decodedSsn
  simp only [] at h ⊢
  split at h
  · split at h
    · split at h
      · rename_i hrc havail hlen
        refine ⟨hlen, havail, ?_⟩
        simp only [TcpSession.is_data_available, Bool.and_eq_true,
          Bool.not_eq_true', beq_iff_eq] at havail
        simpa only [beq_iff_eq] using havail.2
      · simp at h
    · simp at h
  · simp at h

/-- Witness for `c2_amended` at the fourth handshake packet. -/
theorem c2_witness :
    0 < hsPkt4.data_len ∧
    (TcpSsnDecoder.decodedSsn hsState3 hsPkt4).is_data_available hsPkt4.dir
      = true ∧
    (if (TcpSsnDecoder.decodedSsn hsState3 hsPkt4).dir == hsPkt4.dir
     then (TcpSsnDecoder.decodedSsn hsState3 hsPkt4).client
     else (TcpSsnDecoder.decodedSsn hsState3 hsPkt4).server).stat
       = TcpStat.ESTABLISHED :=
  c2_amended.1 hsState3 hsPkt4 (by decide)

/-- Characterization of the drain loop: each popped entry is destroyed iff
`ts + TIMEOUT < now`; the survivors are reinserted with deadline
`clock + TIMEOUT`, pushed onto the live list in pop order. -/
lemma drainExpired_eq (now clock : Nat) (q : List TcpSession) :
    ∀ live, drainExpired now clock q live =
      ((q.filter (fun e => !decide (e.ts + TIMEOUT < now))).reverse.map
          (fun e => (clock + TIMEOUT, e)) ++ live,
       q.filter (fun e => decide (e.ts + TIMEOUT < now))) := by
  induction q with
  | nil => intro live; simp [drainExpired]
  | cons e rest ih =>
    intro live
    by_cases hd : e.ts + TIMEOUT < now
    · simp [drainExpired, hd, ih, List.filter_cons]
    · simp [drainExpired, hd, ih, List.filter_cons, List.reverse_cons,
        List.map_append, List.append_assoc]

/-- Claim C5: in `timeout_session(now)`, `prog` is applied to the table only
when `0 < last_ts ∧ last_ts < now` (so backward timestamps pause TTL
accounting without corrupting it); every entry popped from the expired queue
is destroyed iff `entry.ts + TIMEOUT < now` and is otherwise reinserted with
TTL = `TIMEOUT`; afterwards `last_ts = now` and the expired queue is
empty. -/
theorem c5_timeout_session (st : DecoderState) (now : Nat) :
    (let t := if 0 < st.last_ts ∧ st.last_ts < now
              then st.ssn_table.prog (now - st.last_ts) else st.ssn_table
     (TcpSsnDecoder.timeout_session st now).2 =
        t.expired.filter (fun e => decide (e.ts + TIMEOUT < now)) ∧
     (TcpSsnDecoder.timeout_session st now).1 =
       { ssn_table :=
           { clock := t.clock,
             live := (t.expired.filter
                 (fun e => !decide (e.ts + TIMEOUT < now))).reverse.map
                   (fun e => (t.clock + TIMEOUT, e)) ++ t.live,
             expired := [] },
         last_ts := now }) := by
  unfold TcpSsnDecoder.timeout_session
  simp [drainExpired_eq]

/-- One raw endpoint transition: a direct `Node::send` or `Node::recv`
call. -/
inductive NodeOp where
  | send (flags seq ack data_len : Nat)
  | recv (flags seq ack data_len : Nat)
deriving DecidableEq

/-- Folding a list of `send`/`recv` calls over an endpoint. -/
def Node.runOps (n : Node) : List NodeOp → Node
  | [] => n
  | NodeOp.send f s a d :: rest => Node.runOps (n.send f s a d).1 rest
  | NodeOp.recv f s a d :: rest => Node.runOps (n.recv f s a d).1 rest

/-- Total payload length of the `send` calls in an op list. -/
def sendLenSum : List NodeOp → Nat
  | [] => 0
  | NodeOp.send _ _ _ d :: rest => d + sendLenSum rest
  | NodeOp.recv _ _ _ _ :: rest => sendLenSum rest

/-- Lemma: `Node::recv` never touches `sent_len`. -/
lemma recv_sent_len (n : Node) (flags seq ack data_len : Nat) :
    (n.recv flags seq ack data_len).1.sent_len = n.sent_len := by
  unfold Node.recv
  cases h : n.stat <;> simp [h] <;> repeat' split <;> simp_all

/-- Lemma: `Node::send` either leaves `sent_len` alone or adds `data_len` to it
modulo `2^32` (when the endpoint ends the call in ESTABLISHED). -/
lemma send_sent_len (n : Node) (flags seq ack data_len : Nat) :
    (n.send flags seq ack data_len).1.sent_len = n.sent_len ∨
    (n.send flags seq ack data_len).1.sent_len =
      (n.sent_len + data_len) % U32 := by
  unfold Node.send
  cases h : n.stat <;> simp [h] <;> repeat' split <;> simp_all

/-- Claim C6 (amended): `sent_len` is a 32-bit counter, only ever changed by
adding `data_len` modulo `2^32` while ESTABLISHED and never reset; it is
monotonically non-decreasing across any sequence of `send`/`recv` calls as
long as the accumulated payload stays below `2^32` (the counterexample shows
it wraps beyond that). -/
theorem c6_amended (ops : List NodeOp) :
    ∀ n : Node, n.sent_len + sendLenSum ops < U32 →
      n.sent_len ≤ (n.runOps ops).sent_len ∧
      (n.runOps ops).sent_len ≤ n.sent_len + sendLenSum ops := by
  induction ops with
  | nil => intro n _; simp [Node.runOps]
  | cons op rest ih =>
    intro n h
    cases op with
    | send f sq a d =>
        have hsum : sendLenSum (NodeOp.send f sq a d :: rest) =
            d + sendLenSum rest := rfl
        rw [hsum] at h ⊢
        have hlt : n.sent_len + d < U32 := by omega
        have hmod : (n.sent_len + d) % U32 = n.sent_len + d :=
          Nat.mod_eq_of_lt hlt
        have hbound : n.sent_len ≤ (n.send f sq a d).1.sent_len ∧
            (n.send f sq a d).1.sent_len ≤ n.sent_len + d := by
          rcases send_sent_len n f sq a d with h1 | h1
          · rw [h1]; omega
          · rw [h1, hmod]; omega
        have hih := ih (n.send f sq a d).1 (by omega)
        have hrun : n.runOps (NodeOp.send f sq a d :: rest) =
            (n.send f sq a d).1.runOps rest := rfl
        rw [hrun]
        omega
    | recv f sq a d =>
        have hsum : sendLenSum (NodeOp.recv f sq a d :: rest) =
            sendLenSum rest := rfl
        rw [hsum] at h ⊢
        have hstep := recv_sent_len n f sq a d
        have hih := ih (n.recv f sq a d).1 (by omega)
        have hrun : n.runOps (NodeOp.recv f sq a d :: rest) =
            (n.recv f sq a d).1.runOps rest := rfl
        rw [hrun]
        omega

/-- The op list of witness `c6_witness`: SYN, handshake ACK, then 100 bytes
of data. -/
def wrapOps : List NodeOp :=
  [NodeOp.send 2 1000 0 0, NodeOp.send 16 1001 0 0, NodeOp.send 16 1001 0 100]

/-- Witness for `c6_amended` on a concrete no-wrap op sequence. -/
theorem c6_witness :
    Node.init.sent_len ≤ (Node.init.runOps wrapOps).sent_len ∧
    (Node.init.runOps wrapOps).sent_len ≤
      Node.init.sent_len + sendLenSum wrapOps :=
  c6_amended wrapOps Node.init (by decide)

end Swarm
